import Mathlib

/-
  Verification development for the conversational-turn pipeline of the
  Character-AI backend.  The JavaScript sources are shallowly embedded:
  strings are lists of characters, the message store and the Redis cache
  are explicit state values, and the external completion service is an
  oracle parameter.  Every definition is translated from the source files
  named in its doc comment.
-/

deriving instance DecidableEq for Except

namespace CharAI

/-- Text is modelled as a list of characters (JS strings). -/
abbrev Str := List Char

/-- Coercion helper from Lean string literals. -/
def str (s : String) : Str := s.data

/-- ASCII whitespace, the common core of the JS regex class back-slash-s. -/
def isWS (c : Char) : Bool := c = ' ' || c = '\t' || c = '\n' || c = '\r'

/-- Newline characters, the JS class of carriage return and line feed. -/
def isNL (c : Char) : Bool := c = '\n' || c = '\r'

/-- Sentence-ending punctuation used by the source regexes. -/
def isPunctSent (c : Char) : Bool := c = '.' || c = '!' || c = '?'

/-- ASCII digit test. -/
def isDigitC (c : Char) : Bool := '0' ≤ c && c ≤ '9'

/-- JS String.prototype.trim: drop whitespace at both ends. -/
def jsTrim (s : Str) : Str :=
  ((s.dropWhile isWS).reverse.dropWhile isWS).reverse

/-- JS String.prototype.slice with start 0: keep the first n characters. -/
def jsTake (n : Nat) (s : Str) : Str := s.take n

/-- JS String.prototype.toLowerCase restricted to the ASCII range used here. -/
def toLowerStr (s : Str) : Str := s.map Char.toLower

/-- Does the second list start with the first one (pattern, then text)? -/
def startsWith {α : Type} [DecidableEq α] : List α → List α → Bool
  | [], _ => true
  | _ :: _, [] => false
  | a :: as, b :: bs => a = b && startsWith as bs

/-- JS String.prototype.includes: substring occurrence (pattern, then text). -/
def hasSub (pat : Str) : Str → Bool
  | [] => startsWith pat []
  | s@(_ :: rest) => startsWith pat s || hasSub pat rest

/-- Splitting on whitespace runs, dropping empty chunks: the effect of the JS
split on a whitespace regex followed by filtering empties.  First argument is
the current word accumulated in reverse. -/
def wordsAux : Str → Str → List Str
  | cur, [] => if cur = [] then [] else [cur.reverse]
  | cur, c :: rest =>
    if isWS c then
      if cur = [] then wordsAux [] rest else cur.reverse :: wordsAux [] rest
    else wordsAux (c :: cur) rest

/-- Maximal non-whitespace runs of a string. -/
def wordsOf (s : Str) : List Str := wordsAux [] s

/-- JS replace of every whitespace run by one space, then trim: the
normalisation used by the uniqueness checks in chat.service.js. -/
def normalizeWS (s : Str) : Str :=
  (List.intersperse (str " ") (wordsOf s)).flatten

/-- Number of words, the JS match of non-whitespace runs. -/
def countWords (s : Str) : Nat := (wordsOf s).length

/-- Total character count of a list of strings. -/
def sumLens (l : List Str) : Nat := l.foldr (fun s n => s.length + n) 0

/-- Order-preserving deduplication (JS Set insertion order), with the set of
already-seen values as an accumulator. -/
def dedupFirstAux (seen : List Str) : List Str → List Str
  | [] => []
  | w :: ws =>
    if seen.contains w then dedupFirstAux seen ws
    else w :: dedupFirstAux (w :: seen) ws

/-- Order-preserving deduplication from an empty accumulator. -/
def dedupFirst (l : List Str) : List Str := dedupFirstAux [] l

/-- State of the sentence splitter: outside any separator, inside a
whitespace-run separator, or inside a newline-run separator. -/
inductive SepMode | tok | wsRun | nlRun
deriving DecidableEq, Repr

/-- Splitter for the source regexes that cut either at a whitespace run
preceded by sentence punctuation (a lookbehind) or, when the flag nl is set,
at a newline run anywhere.  Arguments: the separator state, the current chunk
in reverse, whether the previously consumed character was sentence
punctuation, and the rest of the input. -/
def splitSentAux (nl : Bool) : SepMode → Str → Bool → Str → List Str
  | _, cur, _, [] => [cur.reverse]
  | .wsRun, _, _, c :: rest =>
    if isWS c then splitSentAux nl .wsRun [] false rest
    else splitSentAux nl .tok [c] (isPunctSent c) rest
  | .nlRun, _, _, c :: rest =>
    if isNL c then splitSentAux nl .nlRun [] false rest
    else splitSentAux nl .tok [c] (isPunctSent c) rest
  | .tok, cur, prevP, c :: rest =>
    if prevP && isWS c then cur.reverse :: splitSentAux nl .wsRun [] false rest
    else if nl && isNL c then cur.reverse :: splitSentAux nl .nlRun [] false rest
    else splitSentAux nl .tok (c :: cur) (isPunctSent c) rest

/-- Split at whitespace runs preceded by sentence punctuation, keeping empty
chunks: the sentence split used by the generation validators. -/
def splitSent (s : Str) : List Str := splitSentAux false .tok [] false s

/-- Split also at newline runs: the sentence split of the free-plan length
validator. -/
def splitSentNL (s : Str) : List Str := splitSentAux true .tok [] false s

/-- Sentences after the JS filter on truthiness (empty chunks dropped). -/
def sentencesOf (s : Str) : List Str := (splitSent s).filter (· ≠ [])

/-- Sentences of the free-plan validator after dropping empty chunks. -/
def sentencesNLOf (s : Str) : List Str := (splitSentNL s).filter (· ≠ [])

/-- First sentence of a normalized candidate, with the JS fallback to the
whole string when the first chunk is empty. -/
def firstSentenceOf (s : Str) : Str :=
  match splitSent s with
  | [] => s
  | t :: _ => if t = [] then s else t

/-! ## Redis cache model (src/src/config/redis.js) -/

/-- External Redis store: keys with absolute expiry times (seconds). -/
abbrev RedisStore := List (Str × Nat)

/-- The external SET command with EX and NX options, as the node-redis client
executes it: when the key is present and unexpired it performs nothing and
resolves to null (no exception); otherwise it stores the key with the given
TTL and resolves to OK.  Result: whether the key was newly set, and the new
store. -/
def redisSetNX (store : RedisStore) (key : Str) (ttl now : Nat) :
    Option Unit × RedisStore :=
  if store.any (fun e => e.1 = key && decide (now < e.2)) then (none, store)
  else (some (), (key, now + ttl) :: store.filter (fun e => e.1 ≠ key))

/-- RedisClient.set from redis.js lines 97-109: returns false when the client
is not connected, otherwise awaits the SET with EX and NX options and returns
true.  The resolution value of the NX set (OK or null) is discarded by the
source, so the function returns true whether or not the key already existed;
only a thrown error (absent from this pure model) yields false. -/
def redisClientSet (connected : Bool) (store : RedisStore) (key : Str)
    (ttl now : Nat) : Bool × RedisStore :=
  if !connected then (false, store)
  else
    let r := redisSetNX store key ttl now
    (true, r.2)

/-- Whether a key is currently present (unexpired) in the store. -/
def redisHasKey (store : RedisStore) (key : Str) (now : Nat) : Bool :=
  store.any (fun e => e.1 = key && decide (now < e.2))

/-! ## chat.service.js: topic extraction, flirt detection, guards -/

/-- Stop-word set of extractTopic (chat.service.js lines 42-56). -/
def stopWords : List Str :=
  [str "the", str "a", str "an", str "and", str "or", str "but", str "with",
   str "for", str "to", str "of", str "in", str "on", str "at", str "is",
   str "are", str "am", str "be", str "it", str "this", str "that",
   str "you", str "me", str "my", str "your", str "we", str "our", str "us"]

/-- Result of extractTopic: a focus clause and up to five keywords. -/
structure Topic where
  focus : Str
  keywords : List Str
deriving DecidableEq, Repr

/-- The trailing-clause match of extractTopic: the JS regex that takes, at the
end of the string, a maximal run of non-sentence-punctuation characters
followed by at most one punctuation character (no match when the string ends
in two punctuation characters or is empty). -/
def lastSentenceOf (s : Str) : Str :=
  match s.reverse with
  | [] => []
  | c :: rest =>
    if isPunctSent c then
      let seg := rest.takeWhile (fun x => !isPunctSent x)
      if seg = [] then [] else seg.reverse ++ [c]
    else
      ((c :: rest).takeWhile (fun x => !isPunctSent x)).reverse

/-- extractTopic (chat.service.js lines 42-56): last clause of the trimmed
text, lowercased, non-alphanumerics replaced by spaces, words longer than 3
characters minus stop-words, deduplicated, first five kept; the focus is the
last clause cut to 120 characters. -/
def extractTopic (text : Str) : Topic :=
  let raw := jsTrim text
  let lastSentence := lastSentenceOf raw
  let lowered := toLowerStr lastSentence
  let cleaned := lowered.map (fun c =>
    if ('a' ≤ c && c ≤ 'z') || isDigitC c || isWS c then c else ' ')
  let words := (wordsOf cleaned).filter
    (fun w => 3 < w.length && !stopWords.contains w)
  let keywords := (dedupFirst words).take 5
  ⟨jsTake 120 lastSentence, keywords⟩

/-- Flirtation keyword list of detectFlirt (chat.service.js lines 58-70). -/
def flirtKeywords : List Str :=
  [str "flirt", str "kiss", str "hot", str "cute", str "sexy",
   str "attractive", str "date", str "romantic", str "hold hands",
   str "cuddle", str "blush", str "wink", str "crush", str "turn on",
   str "spicy", str "seduce"]

/-- detectFlirt: any keyword occurs in the lowercased text. -/
def detectFlirt (text : Str) : Bool :=
  flirtKeywords.any (fun k => hasSub k (toLowerStr text))

/-- Paid-plan test shared by the guards and the length validator
(chat.service.js line 372 and line 104). -/
def isPaidPlan (plan : Str) : Bool :=
  plan = str "pro" || plan = str "paid" || plan = str "premium" ||
  plan = str "plus"

/-- Escalation threshold for explicit content (chat.service.js line 308). -/
def minTurnsForExplicit : Nat := 8

/-! ## chat.service.js: free-plan strict length validator (lines 582-657) -/

/-- After optional whitespace, a list marker (dash, asterisk, bullet, or a
digit run followed by a dot) followed by at least one whitespace character:
the body of the list-detection regex of the free-plan validator. -/
def markerHead (s : Str) : Bool :=
  match s.dropWhile isWS with
  | [] => false
  | c :: rest =>
    if c = '-' || c = '*' || c = '•' then
      match rest with
      | d :: _ => isWS d
      | [] => false
    else if isDigitC c then
      match rest.dropWhile isDigitC with
      | '.' :: e :: _ => isWS e
      | _ => false
    else false

/-- Scan for a list marker directly after any newline. -/
def hasListAfterNL : Str → Bool
  | [] => false
  | c :: rest => (c = '\n' && markerHead rest) || hasListAfterNL rest

/-- The list-detection regex: a marker at the start of the string or after a
newline. -/
def hasListMarker (s : Str) : Bool := markerHead s || hasListAfterNL s

/-- A newline followed, after optional whitespace, by another newline: the
double-newline regex of the validator. -/
def dblNLAfter : Str → Bool
  | [] => false
  | c :: rest => c = '\n' || (isWS c && dblNLAfter rest)

/-- Scan for the double-newline pattern anywhere. -/
def hasDblNL : Str → Bool
  | [] => false
  | c :: rest => (c = '\n' && dblNLAfter rest) || hasDblNL rest

/-- The free-plan format check of chat.service.js lines 584-590 (and its
repetition at lines 620-625): a list marker, multiple paragraphs (the second
disjunct of the source makes this any newline at all), fewer than 3 or more
than 4 sentences, or a word count outside 40-90.  The hasLineBreak value the
source also computes is never used in the condition and is omitted. -/
def freeFormatBad (s : Str) : Bool :=
  let hasList := hasListMarker s
  let multiParagraph := hasDblNL s || s.contains '\n'
  let sentenceArr := sentencesNLOf s
  let wordCount := countWords (jsTrim s)
  hasList || multiParagraph || decide (sentenceArr.length < 3) ||
    decide (4 < sentenceArr.length) || decide (wordCount < 40) ||
    decide (90 < wordCount)

/-! ## chat.service.js: generation loop (lines 411-579) -/

/-- One outcome of a call to the external completion service through the
request queue: either the call threw, or it resolved with the given message
content (the source then trims it and treats an empty result as a throw). -/
inductive GenOutcome
  | thrown
  | reply (s : Str)
deriving DecidableEq, Repr

/-- The per-turn inputs of the generation loop. -/
structure GenCtx where
  rawUserMsg : Str
  userTurns : Nat
  nsfwEnabled : Bool
  /-- Trimmed content of the newest message when it is an assistant one
  (chat.service.js line 415), else none. -/
  lastAssistantContent : Option Str
  /-- Normalized contents of the up-to-five most recent assistant messages
  (chat.service.js lines 419-437). -/
  lastAssistantSet : List Str
deriving Repr

/-- Shift phrases of the on-topic validation (chat.service.js line 527).
The phrase with an apostrophe is rebuilt with an explicit character code. -/
def shiftPhrases : List Str :=
  [str "anyway", str "by the way", str "speaking of",
   str "let" ++ [Char.ofNat 39] ++ str "s talk about",
   str "different topic", str "unrelated"]

/-- The candidate rejection tests of chat.service.js lines 508-546, applied to
a trimmed non-empty candidate: repeat of the prior assistant message, repeat
of a previous output or recent assistant message, the on-topic and minimum
sentence test in the early or flirty NSFW phase, and the three-sentence depth
test otherwise in NSFW mode.  True means reject and regenerate. -/
def rejectCandidate (ctx : GenCtx) (previousOutputs : List Str)
    (content : Str) : Bool :=
  let normalized := normalizeWS content
  let lastNorm := ctx.lastAssistantContent.map normalizeWS
  if lastNorm = some normalized then true
  else if previousOutputs.contains normalized ||
      ctx.lastAssistantSet.contains normalized then true
  else if ctx.nsfwEnabled &&
      (detectFlirt ctx.rawUserMsg ||
        decide (ctx.userTurns < minTurnsForExplicit)) then
    let topic := extractTopic ctx.rawUserMsg
    let lower := toLowerStr normalized
    let firstSentence := firstSentenceOf normalized
    let firstLower := toLowerStr firstSentence
    let hasTopicAny := topic.keywords.any
      (fun k => k ≠ [] && hasSub (toLowerStr k) lower)
    let hasTopicFirst := topic.keywords.any
      (fun k => k ≠ [] && hasSub (toLowerStr k) firstLower)
    let hasShift := shiftPhrases.any (fun p => hasSub p lower)
    let sentences := sentencesOf normalized
    topic.keywords ≠ [] &&
      (!hasTopicFirst || (hasShift && !hasTopicAny) ||
        decide (sentences.length < 2))
  else if ctx.nsfwEnabled &&
      !(detectFlirt ctx.rawUserMsg ||
        decide (ctx.userTurns < minTurnsForExplicit)) then
    decide ((sentencesOf (normalizeWS content)).length < 3)
  else false

/-- Result of the bounded-retry while loop: an accepted candidate, exhaustion
of the attempts by rejections, or the RateLimitError thrown when the last
attempt itself fails.  Each carries the number of completion calls made. -/
inductive LoopResult
  | accepted (content : Str) (calls : Nat)
  | exhausted (calls : Nat)
  | rateLimited (calls : Nat)
deriving DecidableEq, Repr

/-- Completion calls consumed by a loop result. -/
def LoopResult.calls : LoopResult → Nat
  | .accepted _ n => n
  | .exhausted n => n
  | .rateLimited n => n

/-- The while loop of chat.service.js lines 439-557 with maxAttempts = 3,
driven by the oracle of completion outcomes.  fuel is maxAttempts minus the
current attempt counter; callIdx numbers the oracle calls.  A thrown call (or
an empty resolution, which the source turns into a throw) on the final
attempt raises the RateLimitError; a rejected candidate only increments the
attempt counter.  previousOutputs mirrors the source set of that name: the
source only ever adds the accepted candidate to it immediately before
breaking, so it stays empty throughout the checks; it is kept as a parameter
for fidelity. -/
def attemptLoop (oracle : Nat → GenOutcome) (ctx : GenCtx) :
    Nat → Nat → List Str → LoopResult
  | 0, callIdx, _ => .exhausted callIdx
  | fuel + 1, callIdx, previousOutputs =>
    match oracle callIdx with
    | .thrown =>
      if fuel = 0 then .rateLimited (callIdx + 1)
      else attemptLoop oracle ctx fuel (callIdx + 1) previousOutputs
    | .reply s =>
      let content := jsTrim s
      if content = [] then
        if fuel = 0 then .rateLimited (callIdx + 1)
        else attemptLoop oracle ctx fuel (callIdx + 1) previousOutputs
      else if rejectCandidate ctx previousOutputs content then
        attemptLoop oracle ctx fuel (callIdx + 1) previousOutputs
      else .accepted content (callIdx + 1)

/-- The final emergency retry of chat.service.js lines 560-579: one
unconstrained completion call; a throw is swallowed and an empty resolution
leaves the reply unset. -/
def emergencyStep (oracle : Nat → GenOutcome) (callIdx : Nat) :
    Option Str × Nat :=
  match oracle callIdx with
  | .thrown => (none, callIdx + 1)
  | .reply s =>
    let c := jsTrim s
    (if c = [] then none else some c, callIdx + 1)

/-- Errors a turn can surface, following middleware/errorHandler.js: the
RateLimitError carries status 429 and a retry-after hint (the retryable
service error class); the others are generic Error values mapped to 500. -/
inductive ChatError
  | rateLimited
  | emptyResponse
  | persistenceFailure
deriving DecidableEq, Repr

/-- Outcome of the generation phase: the reply if any, and the number of
completion calls consumed. -/
structure GenOut where
  aiResponse : Option Str
  calls : Nat
deriving DecidableEq, Repr

/-- Generation phase of sendMessage (chat.service.js lines 439-579): the
bounded-retry loop followed, only when the loop ends without an accepted
candidate, by exactly one emergency call. -/
def generateReply (oracle : Nat → GenOutcome) (ctx : GenCtx) :
    Except ChatError GenOut :=
  match attemptLoop oracle ctx 3 0 [] with
  | .accepted c n => .ok ⟨some c, n⟩
  | .rateLimited _ => .error .rateLimited
  | .exhausted n =>
    let r := emergencyStep oracle n
    .ok ⟨r.1, r.2⟩

/-- Free-plan strict re-prompt of chat.service.js lines 581-657: when the
plan is not paid and the reply fails the format check, one stricter
completion call replaces the reply if it resolves non-empty, and if the check
still fails one final strictest call does the same.  Throws inside the block
are swallowed, keeping the current reply (a throw on the first call also
skips the second, as both sit in one try block). -/
def freePlanRetry (paid : Bool) (oracle : Nat → GenOutcome)
    (air : Option Str) (callIdx : Nat) : Option Str × Nat :=
  if paid then (air, callIdx)
  else
    match air with
    | none => (none, callIdx)
    | some a =>
      if freeFormatBad a then
        match oracle callIdx with
        | .thrown => (some a, callIdx + 1)
        | .reply s =>
          let strictContent := jsTrim s
          let a1 := if strictContent ≠ [] then strictContent else a
          if freeFormatBad a1 then
            match oracle (callIdx + 1) with
            | .thrown => (some a1, callIdx + 2)
            | .reply s2 =>
              let c2 := jsTrim s2
              (some (if c2 ≠ [] then c2 else a1), callIdx + 2)
          else (some a1, callIdx + 1)
      else (some a, callIdx)

/-! ## chat.service.js: sendMessage (lines 249-803)

The session is fixed; its persisted messages are a chronological list of
rows.  The stored procedure create_chat_messages
(sql/functions/create_chat_messages.sql) inserts the user row with
sender_type user and the assistant row with sender_type ai, truncating both
contents to 1000 characters (the slice in chat.service.js lines 748-749).
The moderation pass of lines 311-321 only rewrites the modelUserMsg variable,
which the composed prompt never uses (line 408 sends rawUserMsg), and is
omitted; so are the decoding parameters, which only feed the external call
abstracted by the oracle. -/

/-- A persisted chat_messages row of the chat.service.js pipeline. -/
structure CRow where
  senderType : Str
  content : Str
deriving DecidableEq, Repr

/-- State touched by one sendMessage call: the session rows (chronological)
and the Redis store. -/
structure ChatState where
  rows : List CRow
  redis : RedisStore
deriving DecidableEq, Repr

/-- Per-turn configuration resolved from the database: the character NSFW
flag, the user plan, whether the Redis client is connected, and whether the
create_chat_messages call fails. -/
structure TurnCfg where
  nsfwEnabled : Bool
  plan : Str
  redisConnected : Bool
  persistFails : Bool
deriving DecidableEq, Repr

/-- The duplicate-send guard of chat.service.js lines 259-283: with the two
newest rows (newest first), when the older one is a user row whose trimmed
content equals the trimmed incoming text and the newest one has sender_type
assistant, the newest content is returned unchanged.  The stored rows carry
sender_type ai, never assistant, so this condition also depends on that
spelling. -/
def dupGuardHit (lastTwo : List CRow) (message : Str) : Option Str :=
  match lastTwo with
  | latest :: previous :: _ =>
    if previous.senderType = str "user" &&
        jsTrim previous.content = jsTrim message &&
        latest.senderType = str "assistant" then
      some latest.content
    else none
  | _ => none

/-- Whether a row counts as an assistant one for the idempotency return and
the last-assistant lookup (chat.service.js lines 330 and 415): sender_type
assistant or ai. -/
def isAssistRow (r : CRow) : Bool :=
  r.senderType = str "assistant" || r.senderType = str "ai"

/-- Result of a sendMessage call: the reply text handed to the controller. -/
structure TurnResult where
  response : Str
deriving DecidableEq, Repr

/-- Assembly of the generation context from the session rows
(chat.service.js lines 292-308, 413-437): the raw user text cut to 2000
characters, the user-turn count, the NSFW flag, the trimmed content of the
newest row when it is an assistant one, and the normalized contents of the
up-to-five newest assistant rows. -/
def mkGenCtx (st : ChatState) (cfg : TurnCfg) (message : Str) : GenCtx :=
  let lastTwo := st.rows.reverse.take 2
  let lastAssistantContent :=
    match lastTwo.head? with
    | some r => if isAssistRow r then some (jsTrim r.content) else none
    | none => none
  ⟨jsTake 2000 message,
   (st.rows.filter (fun r => r.senderType = str "user")).length,
   cfg.nsfwEnabled,
   lastAssistantContent,
   ((st.rows.filter isAssistRow).reverse.take 5).map
     (fun r => normalizeWS r.content)⟩

/-- sendMessage of chat.service.js lines 249-803 for one session, driven by
the oracle of completion outcomes.  Steps in source order: the duplicate-send
guard; the idempotency set (raw text as the key surrogate for the hash of
session id and raw text) with its early return when the set reports failure
and the newest row is an assistant one; assembly of the generation context
from the rows; the bounded-retry generation with emergency fallback; the
free-plan strict re-prompt; the empty-reply check; and the
create_chat_messages persistence of the user text and reply, both cut to
1000 characters. -/
def sendMessageCS (st : ChatState) (cfg : TurnCfg) (message : Str)
    (now : Nat) (oracle : Nat → GenOutcome) :
    Except ChatError TurnResult × ChatState :=
  let lastTwo := st.rows.reverse.take 2
  match dupGuardHit lastTwo message with
  | some reply => (.ok ⟨reply⟩, st)
  | none =>
    let rawUserMsg := jsTake 2000 message
    let setRes := redisClientSet cfg.redisConnected st.redis rawUserMsg 15 now
    let st1 : ChatState := ⟨st.rows, setRes.2⟩
    let idemHit : Option Str :=
      if setRes.1 then none
      else
        match lastTwo.head? with
        | some r => if isAssistRow r then some r.content else none
        | none => none
    match idemHit with
    | some reply => (.ok ⟨reply⟩, st1)
    | none =>
      match generateReply oracle (mkGenCtx st cfg message) with
      | .error e => (.error e, st1)
      | .ok g =>
        let after := freePlanRetry (isPaidPlan cfg.plan) oracle g.aiResponse g.calls
        match after.1 with
        | none => (.error .emptyResponse, st1)
        | some aiResponse =>
          if jsTrim aiResponse = [] then (.error .emptyResponse, st1)
          else if cfg.persistFails then (.error .persistenceFailure, st1)
          else
            (.ok ⟨aiResponse⟩,
              ⟨st1.rows ++
                [⟨str "user", jsTake 1000 rawUserMsg⟩,
                 ⟨str "ai", jsTake 1000 aiResponse⟩], st1.redis⟩)

/-! ## chat.service.js: prompt composition (lines 339-480)

The directive contents are long English strings irrelevant to the ordering
claim; each composed message is represented by its kind. -/

/-- Kinds of messages in the composed prompt. -/
inductive MsgKind
  | persona
  | antiRepeat
  | lengthPolicy
  | lengthStrict
  | directAnswer
  | safety
  | pacing
  | flirt
  | topicFocus
  | depth
  | flow
  | history
  | userTurn
deriving DecidableEq, Repr

/-- Inputs that decide which guards are present. -/
structure PromptCfg where
  nsfwEnabled : Bool
  userTurns : Nat
  plan : Str
  rawUserMsg : Str
  historyLen : Nat
deriving Repr

/-- The messages array of chat.service.js lines 397-409: persona system
prompt, the plan length guard, the free-plan strict format guard, then the
conditional direct-answer, safety, pacing, flirt, topic-focus and depth
guards (lines 344-395), then the history and the user turn. -/
def composeBase (cfg : PromptCfg) : List MsgKind :=
  let topic := extractTopic cfg.rawUserMsg
  let hasTopic := topic.focus ≠ [] || topic.keywords ≠ []
  let paid := isPaidPlan cfg.plan
  [.persona] ++ [.lengthPolicy] ++
  (if !paid then [.lengthStrict] else []) ++
  (if cfg.nsfwEnabled && hasTopic then [.directAnswer] else []) ++
  (if !cfg.nsfwEnabled then [.safety] else []) ++
  (if cfg.nsfwEnabled && decide (cfg.userTurns < minTurnsForExplicit) then
    [.pacing] else []) ++
  (if cfg.nsfwEnabled && detectFlirt cfg.rawUserMsg then [.flirt] else []) ++
  (if cfg.nsfwEnabled && hasTopic then [.topicFocus] else []) ++
  (if cfg.nsfwEnabled then [.depth] else []) ++
  List.replicate cfg.historyLen .history ++
  [.userTurn]

/-- tryMessages of chat.service.js lines 416-417: the anti-repeat nudge
spliced in at index 1, after the persona prompt. -/
def composeTry (cfg : PromptCfg) : List MsgKind :=
  match composeBase cfg with
  | [] => [.antiRepeat]
  | m :: ms => m :: .antiRepeat :: ms

/-- Role test used by the flow-enhancer insertion: history items map to the
user or assistant role and the final user turn is a user message; everything
else in the composed list is a system message. -/
def isSystemKind : MsgKind → Bool
  | .history => false
  | .userTurn => false
  | _ => true

/-- enhancedMessages of chat.service.js lines 455-480: the flow enhancer is
inserted before the first non-system message when the second element is a
system one (the anti-repeat nudge), with the fallback of inserting it right
after the first element otherwise. -/
def composeEnhanced (cfg : PromptCfg) : List MsgKind :=
  let t := composeTry cfg
  if 1 < t.length && ((t.get? 1).map isSystemKind).getD false then
    let i := t.findIdx (fun k => !isSystemKind k)
    let j := if 0 < i then i else 1
    t.take j ++ [.flow] ++ t.drop j
  else
    match t with
    | [] => [.flow]
    | m :: ms => m :: .flow :: ms

/-- Membership in the guard-directive kinds the ordering claim ranges over. -/
def isGuardKind : MsgKind → Bool
  | .lengthPolicy => true
  | .lengthStrict => true
  | .directAnswer => true
  | .safety => true
  | .pacing => true
  | .flirt => true
  | .topicFocus => true
  | .depth => true
  | _ => false

/-- The guard directives of a composed prompt, in order. -/
def guardKindsOf (l : List MsgKind) : List MsgKind := l.filter isGuardKind

/-- The group rank the specification sentence assigns to each guard kind:
length-policy directives first, then direct-answer and topic-focus, then
safety, pacing and flirt, then depth. -/
def specRank : MsgKind → Option Nat
  | .lengthPolicy => some 0
  | .lengthStrict => some 0
  | .directAnswer => some 1
  | .topicFocus => some 1
  | .safety => some 2
  | .pacing => some 2
  | .flirt => some 2
  | .depth => some 3
  | _ => none

/-- A list of ranks is nondecreasing. -/
def ranksMonotone : List Nat → Bool
  | [] => true
  | [_] => true
  | a :: b :: rest => decide (a ≤ b) && ranksMonotone (b :: rest)

/-- Formalisation of the ordering the specification sentence states: the
guard directives present in the prompt appear grouped in its fixed order. -/
def specGuardOrderOK (l : List MsgKind) : Bool :=
  ranksMonotone (l.filterMap specRank)

/-- The order in which the source actually emits guard directives. -/
def sourceGuardOrder : List MsgKind :=
  [.lengthPolicy, .lengthStrict, .directAnswer, .safety, .pacing, .flirt,
   .topicFocus, .depth]

/-! ## messageBuilder.js: buildMessagesForSession (lines 10-261)

The character row: the characters table declares nsfw_enabled as a nullable
BOOLEAN (sql/migrations/001_initial_schema.up.sql), so the flag is an
optional boolean here and the source test for true, the string true, 1 or
the string 1 collapses to equality with true. -/

/-- The character fields the turn pipeline reads.  Persona text fields feed
only the prompt wording and are omitted. -/
structure Character where
  nsfwEnabled : Option Bool
deriving DecidableEq, Repr

/-- The NSFW switch of messageBuilder.js line 50. -/
def nsfwFlag (c : Character) : Bool := c.nsfwEnabled = some true

/-- A chat_messages row as the history loader of buildMessagesForSession
reads it. -/
structure HRow where
  role : Str
  content : Str
  isNsfw : Bool
deriving DecidableEq, Repr

/-- A history item after mapping: role collapsed to user or assistant and
content cut to 800 characters (messageBuilder.js lines 183-188). -/
structure HistMsg where
  role : Str
  content : Str
  isNSFW : Bool
deriving DecidableEq, Repr

/-- The cumulative-budget selection of messageBuilder.js lines 238-246: walk
the filtered history from the newest item backwards (here: along the
reversed list), stop at the first item that would push the running character
total past the budget, and keep what was taken.  Arguments: the budget, the
running total, and the reversed candidate list. -/
def takeBudget (budget : Nat) : Nat → List HistMsg → List HistMsg
  | _, [] => []
  | total, m :: rest =>
    if budget < total + m.content.length then []
    else m :: takeBudget budget (total + m.content.length) rest

/-- The history assembly of messageBuilder.js lines 171-247 on the branch
the pipeline can actually reach (NSFW disabled; with NSFW enabled the
function fails earlier at the undefined NSFW_PROMPT identifier of line 128,
so the refusal-filtering and sanitising NSFW branch of lines 193-235 is
dead code): fetch the newest ten rows, map them (role collapsed, content cut
to 800), restore chronological order, drop rows flagged NSFW, and apply the
3500-character budget from the newest retained item backwards. -/
def filteredHistoryOf (msgs : List HRow) : List HistMsg :=
  let rowsDesc := msgs.reverse.take 10
  let mapped := rowsDesc.map (fun r =>
    HistMsg.mk (if r.role = str "assistant" then str "assistant" else str "user")
      (jsTake 800 r.content) r.isNsfw)
  let chronological := mapped.reverse
  chronological.filter (fun m => !m.isNSFW)

/-- The history assembly continued: the 3500-character budget applied to the
filtered chronological list from the newest retained item backwards
(messageBuilder.js lines 238-246). -/
def buildHistory (msgs : List HRow) : List HistMsg :=
  (takeBudget 3500 0 (filteredHistoryOf msgs).reverse).reverse

/-- Failure mode of buildMessagesForSession: the ReferenceError raised at
line 128, where the NSFW branch of the template selection names the
identifier NSFW_PROMPT although the module only defines ROMANTIC_PROMPT and
SFW_PROMPT. -/
inductive BuildError
  | nsfwPromptUndefined
deriving DecidableEq, Repr

/-- Successful output of buildMessagesForSession: the history injected into
the prompt and the NSFW state reported to the caller. -/
structure BuildOut where
  history : List HistMsg
  usedNSFW : Bool
deriving DecidableEq, Repr

/-- buildMessagesForSession of messageBuilder.js lines 10-261: the NSFW
switch is computed at line 50, and evaluation reaches the template selection
of line 128 before the history fetch of line 171, so a character with the
flag set true fails there with the ReferenceError; otherwise the history is
assembled and the call returns with usedNSFW false. -/
def buildMessagesForSession (character : Character) (msgs : List HRow) :
    Except BuildError BuildOut :=
  let nsfw := nsfwFlag character
  if nsfw then .error .nsfwPromptUndefined
  else .ok ⟨buildHistory msgs, nsfw⟩

/-! ## messageBuilder.js: the alternative sendMessage (lines 472-630) -/

/-- Maximum of an integer list, defaulting to 0 on the empty list: the value
of the order-index query (top row when sorting descending with nulls last,
null coalesced to 0). -/
def listMaxD : List Int → Int
  | [] => 0
  | a :: as => as.foldl max a

/-- A chat_messages row as the alternative service writes and reads it:
session, role, content, NSFW flag, optional integer order index, and the
mirrored_from provenance entry of the metadata column. -/
structure SRow where
  sessionId : Str
  role : Str
  content : Str
  isNsfw : Bool
  orderIndex : Option Int
  mirroredFrom : Option Str
deriving DecidableEq, Repr

/-- The message store, rows in insertion order. -/
abbrev SDB := List SRow

/-- The order-index fetch of messageBuilder.js lines 490-496 (and its mirror
copies): the top row when sorting by order_index descending with nulls last,
defaulted to 0 — the largest non-null order index of the session, or 0. -/
def maxOrderIndex (db : SDB) (sid : Str) : Int :=
  listMaxD ((db.filter (fun r => r.sessionId = sid)).filterMap
      (fun r => r.orderIndex))

/-- The non-null order indices of a session, in insertion order. -/
def sessionIdxs (db : SDB) (sid : Str) : List Int :=
  (db.filter (fun r => r.sessionId = sid)).filterMap (fun r => r.orderIndex)

/-- Characters admitted by the UUID capture group of the MIRROR_LINK
pattern. -/
def isUuidChar (c : Char) : Bool :=
  isDigitC c || ('a' ≤ c && c ≤ 'f') || ('A' ≤ c && c ≤ 'F') || c = '-'

/-- The MIRROR_LINK content marker. -/
def mirrorTag : Str := str "MIRROR_LINK:"

/-- The anchored regex of getMirrorSessionId: the tag followed by exactly 36
UUID characters. -/
def parseMirror (content : Str) : Option Str :=
  if startsWith mirrorTag content then
    let uuidPart := content.drop mirrorTag.length
    if uuidPart.length = 36 && uuidPart.all isUuidChar then some uuidPart
    else none
  else none

/-- getMirrorSessionId of messageBuilder.js lines 511-527: the first system
row of the session whose content matches the tag case-insensitively (the
ilike filter), then the case-sensitive anchored regex on it; any failure
yields none. -/
def getMirrorSessionId (db : SDB) (sid : Str) : Option Str :=
  match (db.filter (fun r =>
      r.sessionId = sid && r.role = str "system" &&
      startsWith (toLowerStr mirrorTag) (toLowerStr r.content))).head? with
  | none => none
  | some r => parseMirror r.content

/-- The value returned by the alternative sendMessage. -/
structure SimpleResult where
  response : Str
  isNSFW : Bool
  persistedUser : Bool
  persistedAssistant : Bool
deriving DecidableEq, Repr

/-- sendMessage of messageBuilder.js lines 472-630 for one request, in
source order: buildMessagesForSession (whose failure aborts the request with
the store untouched and no completion call made); the order-index fetch
giving the user slot max+1 and the assistant slot max+2; the completion call
(its trimmed content is the aiReply argument, empty standing for the empty
fallback); the mirror-link lookup; the user insert (skipped when the text is
empty, its failure logged and recorded in the persisted flags) followed on
success by the best-effort mirror insert with freshly fetched mirror order
index and mirrored_from provenance; the assistant insert and its mirror
insert likewise; and the normal return carrying the reply and both persisted
flags.  The four failure flags are the insert-error oracles; a failed insert
leaves the store unchanged.  The final component reports whether the
completion service was called. -/
def sendMessageSimple (db : SDB) (sid : Str) (character : Character)
    (message : Str) (aiReply : Str)
    (userFail aiFail mirrorUserFail mirrorAiFail : Bool) :
    Except BuildError SimpleResult × SDB × Bool :=
  let sessionHist := (db.filter (fun r => r.sessionId = sid)).map
    (fun r => HRow.mk r.role r.content r.isNsfw)
  match buildMessagesForSession character sessionHist with
  | .error e => (.error e, db, false)
  | .ok b =>
    let userText := jsTake 2000 message
    let turnNSFW := b.usedNSFW
    let baseIndex := maxOrderIndex db sid
    let nextUserIndex := baseIndex + 1
    let nextAssistantIndex := baseIndex + 2
    let aiResponse := jsTrim aiReply
    let mirror := getMirrorSessionId db sid
    let step1 : SDB × Bool :=
      if userText ≠ [] then
        if userFail then (db, false)
        else
          let dbU := db ++
            [⟨sid, str "user", userText, turnNSFW, some nextUserIndex, none⟩]
          let dbU2 :=
            match mirror with
            | some mid =>
              if mirrorUserFail then dbU
              else dbU ++
                [⟨mid, str "user", userText, turnNSFW,
                  some (maxOrderIndex dbU mid + 1), some sid⟩]
            | none => dbU
          (dbU2, true)
      else (db, false)
    let db1 := step1.1
    let savedUser := step1.2
    let step2 : SDB × Bool :=
      if aiResponse ≠ [] then
        if aiFail then (db1, false)
        else
          let dbA := db1 ++
            [⟨sid, str "assistant", aiResponse, turnNSFW,
              some nextAssistantIndex, none⟩]
          let dbA2 :=
            match mirror with
            | some mid =>
              if mirrorAiFail then dbA
              else dbA ++
                [⟨mid, str "assistant", aiResponse, turnNSFW,
                  some (maxOrderIndex dbA mid + 1), some sid⟩]
            | none => dbA
          (dbA2, true)
      else (db1, false)
    (.ok ⟨aiResponse, turnNSFW, savedUser, step2.2⟩, step2.1, true)

/-! ## Concrete fixtures used by the evaluation theorems -/

/-- A paid-plan, SFW, Redis-connected turn configuration. -/
def cfgPaidSFW : TurnCfg := ⟨false, str "pro", true, false⟩

/-- Completion oracle that always resolves with the same text. -/
def oracleHello : Nat → GenOutcome := fun _ => .reply (str "Hello there.")

/-- Completion oracle resolving with a fresh text. -/
def oracleOther : Nat → GenOutcome :=
  fun _ => .reply (str "Something else entirely.")

/-- Oracle whose first three calls resolve with the prior assistant text and
whose later calls throw. -/
def oracleRepeatThenThrow : Nat → GenOutcome :=
  fun n => if n < 3 then .reply (str "Hello there.") else .thrown

/-- First call of the duplicate-submission scenario: empty session. -/
def firstCallC1 : Except ChatError TurnResult × ChatState :=
  sendMessageCS ⟨[], []⟩ cfgPaidSFW (str "hi") 0 oracleHello

/-- Second call of the duplicate-submission scenario: same session, same
text, five seconds later (inside the 15-second idempotency window). -/
def secondCallC1 : Except ChatError TurnResult × ChatState :=
  sendMessageCS firstCallC1.2 cfgPaidSFW (str "hi") 5 oracleOther

/-- A session that already holds one turn. -/
def stOneTurn : ChatState :=
  ⟨[⟨str "user", str "hi"⟩, ⟨str "ai", str "Hello there."⟩], []⟩

/-- Turn on stOneTurn whose completion calls all resolve with the text of
the prior assistant message. -/
def callC4 : Except ChatError TurnResult × ChatState :=
  sendMessageCS stOneTurn cfgPaidSFW (str "how are you") 0 oracleHello

/-- Turn on stOneTurn whose three loop calls resolve with the prior
assistant text and whose emergency call throws. -/
def callC5 : Except ChatError TurnResult × ChatState :=
  sendMessageCS stOneTurn cfgPaidSFW (str "how are you") 0
    oracleRepeatThenThrow

/-- Prompt configuration with NSFW enabled, an early session, and a user
message that carries topic keywords but no flirt keyword. -/
def cfgC6 : PromptCfg :=
  ⟨true, 0, str "pro", str "tell me about the mountains", 0⟩

/-- A generation context whose prior assistant message is known. -/
def ctxAccept : GenCtx :=
  ⟨str "how are you", 2, false, some (str "Hi."),
   [normalizeWS (str "Hi.")]⟩

/-- Oracle resolving with a text different from the prior assistant one. -/
def oracleFresh : Nat → GenOutcome := fun _ => .reply (str "Fresh reply.")

/-- A 36-character session identifier for the mirror fixtures. -/
def uuidB : Str := str "123e4567-e89b-12d3-a456-426614174000"

/-- A store holding only the MirrorLink marker of session A. -/
def dbMirror : SDB :=
  [⟨str "A", str "system", mirrorTag ++ uuidB, false, none, none⟩]

/-- A small store with two indexed rows in session A. -/
def dbTwoRows : SDB :=
  [⟨str "A", str "user", str "hi", false, some 1, none⟩,
   ⟨str "A", str "assistant", str "Hello.", false, some 2, none⟩]

/-! # Claim theorems: concrete evaluations -/

/-- Claim C7: the claim states that redisClient.set returns false when the
key is already present.  Evaluating the embedding of RedisClient.set at a
connected client and a key that is present and unexpired shows the call
returning true with the store unchanged: the source discards the null
resolution of the NX set and returns true on every non-throwing path, so the
claimed false-on-present contract, which the NX comment in the source and
the duplicate-window check at its call site clearly intend, does not hold. -/
theorem C7_set_returns_true_when_key_present :
    redisHasKey [(str "k", 20)] (str "k") 5 = true ∧
    redisClientSet true [(str "k", 20)] (str "k") 15 5
      = (true, [(str "k", 20)]) := by decide

/-- Claim C1: the claim states that a second sendMessage call with the same
session and raw text inside the 15-second window returns the first reply and
persists nothing new.  Evaluating the pipeline twice on the same text shows
the idempotency key present at the time of the second call, yet the second
call returns a freshly generated different reply and appends another
user/assistant pair: the duplicate guard compares sender_type against
assistant while the stored procedure writes ai, and redisClient.set reports
true even though the NX set found the key present, so neither short-circuit
fires. -/
theorem C1_duplicate_resubmission_regenerates :
    firstCallC1.1 = .ok ⟨str "Hello there."⟩ ∧
    firstCallC1.2.rows =
      [⟨str "user", str "hi"⟩, ⟨str "ai", str "Hello there."⟩] ∧
    redisHasKey firstCallC1.2.redis (str "hi") 5 = true ∧
    secondCallC1.1 = .ok ⟨str "Something else entirely."⟩ ∧
    secondCallC1.2.rows =
      [⟨str "user", str "hi"⟩, ⟨str "ai", str "Hello there."⟩,
       ⟨str "user", str "hi"⟩,
       ⟨str "ai", str "Something else entirely."⟩] := by decide

/-- Claim C4, counterexample: a turn whose completion calls all resolve with
the text of the immediately-prior assistant message.  The retry loop rejects
the candidate three times, but the emergency fallback adopts the same text
without any uniqueness check, and it is persisted: the session ends with two
adjacent assistant rows of identical normalized content, refuting that such
a candidate is never persisted. -/
theorem C4_counterexample_repeat_persisted :
    callC4.1 = .ok ⟨str "Hello there."⟩ ∧
    callC4.2.rows =
      [⟨str "user", str "hi"⟩, ⟨str "ai", str "Hello there."⟩,
       ⟨str "user", str "how are you"⟩,
       ⟨str "ai", str "Hello there."⟩] := by decide

/-- Claim C5, counterexample: three loop attempts are exhausted by
uniqueness rejections, the single emergency call throws, and the turn fails
with the generic empty-response error, not with the RateLimitError class the
claim calls the retryable-service error (errorHandler.js gives only
RateLimitError status 429 with a retry-after hint; a generic Error maps to
500). -/
theorem C5_counterexample_generic_error_when_empty :
    callC5.1 = .error .emptyResponse ∧
    ChatError.emptyResponse ≠ ChatError.rateLimited := by decide

/-- Claim C6, counterexample: with NSFW enabled, an early session and a
message carrying topic keywords, the composed prompt places the pacing guard
before the topic-focus guard, so the claimed group order (direct-answer and
topic-focus before safety, pacing and flirt) fails on this prompt. -/
theorem C6_counterexample_topic_after_pacing :
    composeEnhanced cfgC6 =
      [.persona, .antiRepeat, .lengthPolicy, .directAnswer, .pacing,
       .topicFocus, .depth, .flow, .userTurn] ∧
    specGuardOrderOK (composeEnhanced cfgC6) = false := by decide

/-- Claim C3, counterexample: a turn in which both the user and the
assistant insert fail still returns the reply normally with both persisted
flags false; no terminal error is surfaced, refuting the claimed terminal
failure. -/
theorem C3_counterexample_failure_not_terminal :
    sendMessageSimple [] (str "A") ⟨some false⟩ (str "hi") (str "Hello.")
        true true false false
      = (.ok ⟨str "Hello.", false, false, false⟩, [], true) := by decide

/-! # Helper lemmas -/

theorem sumLens_nil : sumLens [] = 0 := rfl

theorem sumLens_cons (s : Str) (l : List Str) :
    sumLens (s :: l) = s.length + sumLens l := rfl

theorem sumLens_append (l₁ l₂ : List Str) :
    sumLens (l₁ ++ l₂) = sumLens l₁ + sumLens l₂ := by
  induction l₁ with
  | nil => simp [sumLens_nil]
  | cons s l ih => simp [sumLens_cons, ih]; omega

theorem sumLens_reverse (l : List Str) : sumLens l.reverse = sumLens l := by
  induction l with
  | nil => rfl
  | cons s l ih =>
    simp [List.reverse_cons, sumLens_append, sumLens_cons, ih, sumLens_nil]
    omega

theorem takeBudget_length_le (b : Nat) :
    ∀ t l, (takeBudget b t l).length ≤ l.length := by
  intro t l
  induction l generalizing t with
  | nil => simp [takeBudget]
  | cons m rest ih =>
    unfold takeBudget
    split
    · simp
    · simpa using ih (t + m.content.length)

theorem takeBudget_mem (b : Nat) :
    ∀ t l m, m ∈ takeBudget b t l → m ∈ l := by
  intro t l
  induction l generalizing t with
  | nil => intro m h; simp [takeBudget] at h
  | cons x rest ih =>
    intro m h
    unfold takeBudget at h
    split at h
    · simp at h
    · rcases List.mem_cons.mp h with h' | h'
      · exact h' ▸ List.mem_cons_self _ _
      · exact List.mem_cons_of_mem _ (ih _ _ h')

theorem takeBudget_sum (b : Nat) :
    ∀ t l, sumLens ((takeBudget b t l).map (fun m => m.content)) ≤ b - t := by
  intro t l
  induction l generalizing t with
  | nil => simp [takeBudget, sumLens_nil]
  | cons m rest ih =>
    unfold takeBudget
    split
    · simp [sumLens_nil]
    · rename_i hle
      have h2 := ih (t + m.content.length)
      simp only [List.map_cons, sumLens_cons]
      omega

theorem takeBudget_startsWith (b : Nat) :
    ∀ t l, startsWith (takeBudget b t l) l = true := by
  intro t l
  induction l generalizing t with
  | nil => simp [takeBudget, startsWith]
  | cons m rest ih =>
    unfold takeBudget
    split
    · simp [startsWith]
    · simp [startsWith, ih (t + m.content.length)]

theorem mem_filteredHistory_content_le (msgs : List HRow) (m : HistMsg)
    (h : m ∈ filteredHistoryOf msgs) : m.content.length ≤ 800 := by
  unfold filteredHistoryOf at h
  simp only [List.mem_filter, List.mem_reverse, List.mem_map] at h
  obtain ⟨⟨r, _, hr⟩, _⟩ := h
  subst hr
  simp [jsTake]

theorem filteredHistory_length_le (msgs : List HRow) :
    (filteredHistoryOf msgs).length ≤ 10 := by
  unfold filteredHistoryOf
  calc (((msgs.reverse.take 10).map _).reverse.filter _).length
      ≤ ((msgs.reverse.take 10).map _).reverse.length :=
        List.length_filter_le _ _
    _ ≤ 10 := by simp [List.length_take]

theorem foldlMax_le {y : Int} :
    ∀ (l : List Int) (a : Int), a ≤ y → (∀ x ∈ l, x ≤ y) → l.foldl max a ≤ y := by
  intro l
  induction l with
  | nil => intro a ha _; simpa using ha
  | cons b bs ih =>
    intro a ha hall
    simp only [List.foldl_cons]
    exact ih (max a b) (max_le ha (hall b (List.mem_cons_self _ _)))
      (fun x hx => hall x (List.mem_cons_of_mem _ hx))

theorem le_foldlMax_init :
    ∀ (l : List Int) (a : Int), a ≤ l.foldl max a := by
  intro l
  induction l with
  | nil => intro a; simp
  | cons b bs ih =>
    intro a
    simp only [List.foldl_cons]
    exact le_trans (le_max_left a b) (ih (max a b))

theorem le_foldlMax_mem :
    ∀ (l : List Int) (a x : Int), x ∈ l → x ≤ l.foldl max a := by
  intro l
  induction l with
  | nil => intro a x hx; simp at hx
  | cons b bs ih =>
    intro a x hx
    simp only [List.foldl_cons]
    rcases List.mem_cons.mp hx with h | h
    · rw [h]
      exact le_trans (le_max_right a b) (le_foldlMax_init bs (max a b))
    · exact ih (max a b) x h

theorem le_listMaxD {l : List Int} {x : Int} (h : x ∈ l) : x ≤ listMaxD l := by
  cases l with
  | nil => simp at h
  | cons a as =>
    rcases List.mem_cons.mp h with h' | h'
    · exact h' ▸ le_foldlMax_init as a
    · exact le_foldlMax_mem as a x h'

theorem listMaxD_append_singleton {l : List Int} {y : Int}
    (h : ∀ x ∈ l, x ≤ y) : listMaxD (l ++ [y]) = y := by
  cases l with
  | nil => simp [listMaxD]
  | cons a as =>
    simp only [List.cons_append, listMaxD, List.foldl_append, List.foldl_cons,
      List.foldl_nil]
    have h1 : as.foldl max a ≤ y :=
      foldlMax_le as a (h a (List.mem_cons_self _ _))
        (fun x hx => h x (List.mem_cons_of_mem _ hx))
    exact max_eq_right h1

theorem maxOrderIndex_eq (db : SDB) (sid : Str) :
    maxOrderIndex db sid = listMaxD (sessionIdxs db sid) := rfl

theorem sessionIdxs_append (db l : SDB) (sid : Str) :
    sessionIdxs (db ++ l) sid = sessionIdxs db sid ++ sessionIdxs l sid := by
  simp [sessionIdxs, List.filter_append, List.filterMap_append]

theorem mem_of_getLast? {α : Type} :
    ∀ {l : List α} {a : α}, l.getLast? = some a → a ∈ l := by
  intro l
  induction l with
  | nil => intro a h; simp at h
  | cons b bs ih =>
    intro a h
    cases bs with
    | nil => simp_all
    | cons c cs =>
      rw [List.getLast?_cons_cons] at h
      exact List.mem_cons_of_mem _ (ih h)

theorem le_maxOrderIndex {db : SDB} {sid : Str} {x : Int}
    (h : x ∈ sessionIdxs db sid) : x ≤ maxOrderIndex db sid :=
  maxOrderIndex_eq db sid ▸ le_listMaxD h

theorem sessionIdxs_nil (sid : Str) : sessionIdxs [] sid = [] := rfl

theorem sessionIdxs_cons_of_eq {r : SRow} {rest : SDB} {sid : Str}
    (h : r.sessionId = sid) :
    sessionIdxs (r :: rest) sid = r.orderIndex.toList ++ sessionIdxs rest sid := by
  cases ho : r.orderIndex <;> simp [sessionIdxs, h, ho]

theorem sessionIdxs_cons_of_ne {r : SRow} {rest : SDB} {sid : Str}
    (h : ¬ r.sessionId = sid) :
    sessionIdxs (r :: rest) sid = sessionIdxs rest sid := by
  simp [sessionIdxs, h]

theorem maxOrderIndex_append_other {db : SDB} {r : SRow} {sid : Str}
    (h : ¬ r.sessionId = sid) :
    maxOrderIndex (db ++ [r]) sid = maxOrderIndex db sid := by
  rw [maxOrderIndex_eq, maxOrderIndex_eq, sessionIdxs_append,
    sessionIdxs_cons_of_ne h, sessionIdxs_nil, List.append_nil]

theorem maxOrderIndex_append_own {db : SDB} {r : SRow} {sid : Str}
    (h : r.sessionId = sid)
    (hidx : r.orderIndex = some (maxOrderIndex db sid + 1)) :
    maxOrderIndex (db ++ [r]) sid = maxOrderIndex db sid + 1 := by
  rw [maxOrderIndex_eq, sessionIdxs_append, sessionIdxs_cons_of_eq h, hidx,
    sessionIdxs_nil]
  simp only [Option.toList_some, List.append_nil]
  exact listMaxD_append_singleton
    (fun x hx => le_trans (le_maxOrderIndex hx) (by omega))

theorem maxOrderIndex_append_three {db : SDB} {r1 r2 r3 : SRow} {sid : Str}
    (h1 : ¬ r1.sessionId = sid) (h2 : r2.sessionId = sid)
    (hidx : r2.orderIndex = some (maxOrderIndex db sid + 1))
    (h3 : ¬ r3.sessionId = sid) :
    maxOrderIndex (db ++ [r1, r2, r3]) sid = maxOrderIndex db sid + 1 := by
  rw [maxOrderIndex_eq, sessionIdxs_append, sessionIdxs_cons_of_ne h1,
    sessionIdxs_cons_of_eq h2, hidx, sessionIdxs_cons_of_ne h3,
    sessionIdxs_nil]
  simp only [Option.toList_some, List.append_nil]
  exact listMaxD_append_singleton
    (fun x hx => le_trans (le_maxOrderIndex hx) (by omega))

/-! # Claim theorems: universal statements -/

/-- Claim C8: for every session history, the injected history holds at most
10 items, every item content is cut to at most 800 characters, the total
character count stays within the 3500 budget, and the kept items form a
final segment of the filtered chronological window, so trimming removes
oldest items first. -/
theorem C8_history_bounds (msgs : List HRow) :
    (buildHistory msgs).length ≤ 10 ∧
    (buildHistory msgs).all (fun m => decide (m.content.length ≤ 800)) = true ∧
    sumLens ((buildHistory msgs).map (fun m => m.content)) ≤ 3500 ∧
    startsWith (buildHistory msgs).reverse (filteredHistoryOf msgs).reverse
      = true := by
  refine ⟨?_, ?_, ?_, ?_⟩
  · unfold buildHistory
    calc ((takeBudget 3500 0 (filteredHistoryOf msgs).reverse).reverse).length
        ≤ (filteredHistoryOf msgs).reverse.length := by
          simpa using takeBudget_length_le 3500 0 (filteredHistoryOf msgs).reverse
      _ ≤ 10 := by simpa using filteredHistory_length_le msgs
  · rw [List.all_eq_true]
    intro m hm
    unfold buildHistory at hm
    rw [List.mem_reverse] at hm
    have : m ∈ (filteredHistoryOf msgs).reverse := takeBudget_mem 3500 0 _ m hm
    rw [List.mem_reverse] at this
    simpa using mem_filteredHistory_content_le msgs m this
  · unfold buildHistory
    rw [List.map_reverse, sumLens_reverse]
    simpa using takeBudget_sum 3500 0 (filteredHistoryOf msgs).reverse
  · unfold buildHistory
    rw [List.reverse_reverse]
    exact takeBudget_startsWith 3500 0 (filteredHistoryOf msgs).reverse

/-- Claim C2: under well-formed inputs (a reachable build, a non-empty user
text and reply, successful inserts, a mirror link that does not point at the
session itself, and a store whose session order indices are strictly
increasing), one turn of the alternative sendMessage appends exactly the
user message at index max+1 and the assistant message at index max+2, where
max is the previous maximum order index of the session (0 for an empty
session), and the session index sequence stays strictly increasing with no
duplicates. -/
theorem C2_order_indices (db : SDB) (sid : Str) (character : Character)
    (message aiReply : Str)
    (hn : nsfwFlag character = false)
    (hmsg : jsTake 2000 message ≠ [])
    (hair : jsTrim aiReply ≠ [])
    (hmir : ∀ mid, getMirrorSessionId db sid = some mid → mid ≠ sid)
    (hchain : List.Chain' (· < ·) (sessionIdxs db sid)) :
    sessionIdxs (sendMessageSimple db sid character message aiReply
        false false false false).2.1 sid =
      sessionIdxs db sid ++
        [maxOrderIndex db sid + 1, maxOrderIndex db sid + 2] ∧
    List.Chain' (· < ·)
      (sessionIdxs (sendMessageSimple db sid character message aiReply
        false false false false).2.1 sid) := by
  have key : sessionIdxs (sendMessageSimple db sid character message aiReply
      false false false false).2.1 sid =
      sessionIdxs db sid ++
        [maxOrderIndex db sid + 1, maxOrderIndex db sid + 2] := by
    rcases hm : getMirrorSessionId db sid with _ | mid
    · simp [sendMessageSimple, buildMessagesForSession, hn, hmsg, hair, hm,
        sessionIdxs_append, sessionIdxs_cons_of_eq, sessionIdxs_nil]
    · have hne : ¬ mid = sid := hmir mid hm
      simp [sendMessageSimple, buildMessagesForSession, hn, hmsg, hair, hm,
        sessionIdxs_append, sessionIdxs_cons_of_eq, sessionIdxs_cons_of_ne,
        sessionIdxs_nil, hne]
  refine ⟨key, ?_⟩
  rw [key]
  rw [List.chain'_append]
  refine ⟨hchain, by simp, ?_⟩
  intro x hx y hy
  have hxm : x ∈ sessionIdxs db sid := mem_of_getLast? (Option.mem_def.mp hx)
  have hle : x ≤ maxOrderIndex db sid := le_maxOrderIndex hxm
  simp only [List.head?_cons, Option.mem_def, Option.some.injEq] at hy
  omega

/-- Claim C3 (amended): persistence failures of the user or assistant insert
do not abort the request; the call still returns the reply normally, the two
persisted flags in the result expose exactly which insert failed (so both
failures are individually observable), and a user-insert failure does not
prevent the assistant insert, which still lands at index max+2 whenever it
succeeds. -/
theorem C3_amended_persist_flags (db : SDB) (sid : Str)
    (character : Character) (message aiReply : Str) (userFail aiFail : Bool)
    (hn : nsfwFlag character = false)
    (hair : jsTrim aiReply ≠ []) :
    (sendMessageSimple db sid character message aiReply
        userFail aiFail false false).1 =
      .ok ⟨jsTrim aiReply, false,
        decide (jsTake 2000 message ≠ []) && !userFail, !aiFail⟩ ∧
    (aiFail = false →
      SRow.mk sid (str "assistant") (jsTrim aiReply) false
          (some (maxOrderIndex db sid + 2)) none
        ∈ (sendMessageSimple db sid character message aiReply
            userFail aiFail false false).2.1) := by
  rcases hm : getMirrorSessionId db sid with _ | mid <;>
    cases userFail <;> cases aiFail <;>
      by_cases hmsg : jsTake 2000 message = [] <;>
        simp [sendMessageSimple, buildMessagesForSession, hn, hair, hm, hmsg]

/-- Claim C9: on a successful turn over a session with a MirrorLink marker,
the same user and assistant contents are inserted into the mirror session at
its own next order indices with mirrored_from provenance, and mirror-write
failures are swallowed: whatever the two mirror failure flags, the primary
request still returns the same successful result. -/
theorem C9_mirror_propagation (db : SDB) (sid mid : Str)
    (character : Character) (message aiReply : Str) (muf maf : Bool)
    (hn : nsfwFlag character = false)
    (hm : getMirrorSessionId db sid = some mid)
    (hne : ¬ mid = sid)
    (hmsg : jsTake 2000 message ≠ [])
    (hair : jsTrim aiReply ≠ []) :
    (sendMessageSimple db sid character message aiReply
        false false muf maf).1 = .ok ⟨jsTrim aiReply, false, true, true⟩ ∧
    (muf = false →
      SRow.mk mid (str "user") (jsTake 2000 message) false
          (some (maxOrderIndex db mid + 1)) (some sid)
        ∈ (sendMessageSimple db sid character message aiReply
            false false muf maf).2.1) ∧
    (muf = false → maf = false →
      SRow.mk mid (str "assistant") (jsTrim aiReply) false
          (some (maxOrderIndex db mid + 2)) (some sid)
        ∈ (sendMessageSimple db sid character message aiReply
            false false muf maf).2.1) := by
  have hne2 : ¬ sid = mid := fun h => hne h.symm
  cases muf <;> cases maf <;>
    simp [sendMessageSimple, buildMessagesForSession, hn, hair, hm, hmsg,
      maxOrderIndex_append_other, maxOrderIndex_append_own, hne2]
  refine Or.inr ?_
  rw [maxOrderIndex_append_three hne2 rfl rfl hne2]
  simp only []
  omega

/-- Claim C10: a character whose nsfw_enabled flag is set makes
buildMessagesForSession fail with the ReferenceError for the undefined
NSFW_PROMPT identifier, so the request aborts before any completion call or
database write: the alternative sendMessage returns that error with the
store untouched and the completion-called flag still false.  Prompt
construction therefore succeeds only when the flag is not set. -/
theorem C10_nsfw_template_crash (db : SDB) (sid : Str)
    (character : Character) (message aiReply : Str)
    (f1 f2 f3 f4 : Bool) (msgs : List HRow)
    (h : character.nsfwEnabled = some true) :
    buildMessagesForSession character msgs = .error .nsfwPromptUndefined ∧
    sendMessageSimple db sid character message aiReply f1 f2 f3 f4
      = (.error .nsfwPromptUndefined, db, false) := by
  have hflag : nsfwFlag character = true := by simp [nsfwFlag, h]
  constructor
  · simp [buildMessagesForSession, hflag]
  · simp [sendMessageSimple, buildMessagesForSession, hflag]

theorem attemptLoop_succ (oracle : Nat → GenOutcome) (ctx : GenCtx)
    (fuel callIdx : Nat) (prev : List Str) :
    attemptLoop oracle ctx (fuel + 1) callIdx prev =
      match oracle callIdx with
      | .thrown =>
        if fuel = 0 then .rateLimited (callIdx + 1)
        else attemptLoop oracle ctx fuel (callIdx + 1) prev
      | .reply s =>
        if jsTrim s = [] then
          if fuel = 0 then .rateLimited (callIdx + 1)
          else attemptLoop oracle ctx fuel (callIdx + 1) prev
        else if rejectCandidate ctx prev (jsTrim s) = true then
          attemptLoop oracle ctx fuel (callIdx + 1) prev
        else .accepted (jsTrim s) (callIdx + 1) := rfl

theorem rejectCandidate_false_uniqueness {ctx : GenCtx} {prev : List Str}
    {content : Str} (h : rejectCandidate ctx prev content = false) :
    ctx.lastAssistantContent.map normalizeWS ≠ some (normalizeWS content) ∧
    ctx.lastAssistantSet.contains (normalizeWS content) = false := by
  by_cases h1 :
      ctx.lastAssistantContent.map normalizeWS = some (normalizeWS content)
  · rw [rejectCandidate, if_pos h1] at h
    cases h
  · rw [rejectCandidate, if_neg h1] at h
    by_cases h2 : (prev.contains (normalizeWS content) ||
        ctx.lastAssistantSet.contains (normalizeWS content)) = true
    · rw [if_pos h2] at h
      cases h
    · refine ⟨h1, ?_⟩
      simp only [Bool.or_eq_true, not_or] at h2
      simpa using h2.2

theorem attemptLoop_accepted_reject {oracle : Nat → GenOutcome}
    {ctx : GenCtx} :
    ∀ (fuel callIdx : Nat) {c : Str} {n : Nat},
      attemptLoop oracle ctx fuel callIdx [] = .accepted c n →
      rejectCandidate ctx [] c = false ∧ c ≠ [] := by
  intro fuel
  induction fuel with
  | zero =>
    intro callIdx c n h
    simp [attemptLoop] at h
  | succ fuel ih =>
    intro callIdx c n h
    rw [attemptLoop_succ] at h
    split at h
    · split at h
      · simp at h
      · exact ih _ h
    · split at h
      · split at h
        · simp at h
        · exact ih _ h
      · split at h
        · exact ih _ h
        · rename_i hne hrej
          cases h
          exact ⟨by simpa using hrej, hne⟩

theorem attemptLoop_calls_le {oracle : Nat → GenOutcome} {ctx : GenCtx} :
    ∀ (fuel callIdx : Nat) (prev : List Str),
      (attemptLoop oracle ctx fuel callIdx prev).calls ≤ callIdx + fuel := by
  intro fuel
  induction fuel with
  | zero => intro callIdx prev; simp [attemptLoop, LoopResult.calls]
  | succ fuel ih =>
    intro callIdx prev
    rw [attemptLoop_succ]
    split
    · split
      · simp [LoopResult.calls]
      · have := ih (callIdx + 1) prev
        omega
    · split
      · split
        · simp [LoopResult.calls]
        · have := ih (callIdx + 1) prev
          omega
      · split
        · have := ih (callIdx + 1) prev
          omega
        · simp [LoopResult.calls]

theorem freePlanRetry_none (paid : Bool) (oracle : Nat → GenOutcome)
    (callIdx : Nat) : (freePlanRetry paid oracle none callIdx).1 = none := by
  unfold freePlanRetry
  split <;> rfl

theorem guardKinds_insert (l : List MsgKind) (j : Nat) (x : MsgKind)
    (hx : isGuardKind x = false) :
    guardKindsOf (l.take j ++ [x] ++ l.drop j) = guardKindsOf l := by
  simp only [guardKindsOf, List.filter_append, List.filter_cons, hx,
    Bool.false_eq_true, if_false, List.filter_nil, List.append_nil]
  rw [← List.filter_append, List.take_append_drop]

theorem guardKinds_cons_skip (m : MsgKind) (l : List MsgKind)
    (x : MsgKind) (hx : isGuardKind x = false) :
    guardKindsOf (m :: x :: l) = guardKindsOf (m :: l) := by
  simp only [guardKindsOf, List.filter_cons, hx, Bool.false_eq_true,
    if_false]

theorem guardKinds_composeTry (cfg : PromptCfg) :
    guardKindsOf (composeTry cfg) = guardKindsOf (composeBase cfg) := by
  unfold composeTry
  cases hb : composeBase cfg with
  | nil => simp [guardKindsOf, isGuardKind]
  | cons m ms => exact guardKinds_cons_skip m ms .antiRepeat rfl

theorem guardKinds_composeEnhanced (cfg : PromptCfg) :
    guardKindsOf (composeEnhanced cfg) = guardKindsOf (composeTry cfg) := by
  simp only [composeEnhanced]
  split
  · exact guardKinds_insert _ _ _ rfl
  · split
    · rename_i heq
      rw [heq]
      simp [guardKindsOf, isGuardKind]
    · rename_i m ms heq
      rw [heq]
      exact guardKinds_cons_skip m ms .flow rfl

theorem ite_singleton_sublist (c : Prop) [Decidable c] (x : MsgKind) :
    List.Sublist (if c then [x] else []) [x] := by
  split
  · exact List.Sublist.refl _
  · exact List.nil_sublist _

theorem filter_replicate_history (n : Nat) :
    List.filter isGuardKind (List.replicate n .history) = [] := by
  induction n with
  | zero => rfl
  | succ n ih =>
    rw [List.replicate_succ, List.filter_cons]
    simp [isGuardKind, ih]

theorem guardKinds_composeBase_sublist (cfg : PromptCfg) :
    List.Sublist (guardKindsOf (composeBase cfg)) sourceGuardOrder := by
  show List.Sublist (guardKindsOf (composeBase cfg))
    ([.lengthPolicy] ++ [.lengthStrict] ++ [.directAnswer] ++ [.safety] ++
      [.pacing] ++ [.flirt] ++ [.topicFocus] ++ [.depth])
  unfold composeBase
  simp only [guardKindsOf, List.filter_append, List.filter_cons,
    List.filter_nil, apply_ite (List.filter isGuardKind),
    filter_replicate_history]
  simp [isGuardKind]
  show List.Sublist _
    ([MsgKind.lengthStrict] ++ ([MsgKind.directAnswer] ++
      ([MsgKind.safety] ++ ([MsgKind.pacing] ++ ([MsgKind.flirt] ++
        ([MsgKind.topicFocus] ++ [MsgKind.depth]))))))
  refine List.Sublist.append (ite_singleton_sublist _ _) ?_
  refine List.Sublist.append (ite_singleton_sublist _ _) ?_
  refine List.Sublist.append (ite_singleton_sublist _ _) ?_
  refine List.Sublist.append (ite_singleton_sublist _ _) ?_
  refine List.Sublist.append (ite_singleton_sublist _ _) ?_
  exact List.Sublist.append (ite_singleton_sublist _ _)
    (ite_singleton_sublist _ _)

/-- Claim C4 (amended): the bounded-retry loop itself never accepts a
candidate whose whitespace-normalized text equals the immediately-prior
assistant message or any of the up-to-five recent assistant messages; only
the emergency fallback (whose output skips this check) can hand a repeat to
persistence. -/
theorem C4_amended_loop_rejects_repeats (oracle : Nat → GenOutcome)
    (ctx : GenCtx) (c : Str) (n : Nat)
    (h : attemptLoop oracle ctx 3 0 [] = .accepted c n) :
    ctx.lastAssistantContent.map normalizeWS ≠ some (normalizeWS c) ∧
    ctx.lastAssistantSet.contains (normalizeWS c) = false := by
  obtain ⟨hrej, _⟩ := attemptLoop_accepted_reject 3 0 h
  exact rejectCandidate_false_uniqueness hrej

/-- Witness for the amended C4 theorem at a concrete accepted candidate. -/
theorem C4_amended_loop_rejects_repeats_witness :
    ctxAccept.lastAssistantContent.map normalizeWS ≠
      some (normalizeWS (str "Fresh reply.")) ∧
    ctxAccept.lastAssistantSet.contains (normalizeWS (str "Fresh reply."))
      = false :=
  C4_amended_loop_rejects_repeats oracleFresh ctxAccept
    (str "Fresh reply.") 1 (by decide)

/-- Claim C5 (amended): the generation loop performs at most maxAttempts = 3
completion calls; when it exhausts them through rejections, exactly one
emergency completion call follows; and when the reply is still missing after
that call the turn fails with the generic empty-response error (the
retryable RateLimitError is raised only when the final attempt itself
throws, in which case no emergency call happens). -/
theorem C5_amended_retry_contract (oracle : Nat → GenOutcome)
    (ctx : GenCtx) :
    (attemptLoop oracle ctx 3 0 []).calls ≤ 3 ∧
    (∀ n, attemptLoop oracle ctx 3 0 [] = .exhausted n →
      ∃ g, generateReply oracle ctx = .ok g ∧ g.calls = n + 1) ∧
    (∀ (st : ChatState) (cfg : TurnCfg) (message : Str) (now : Nat)
        (g : GenOut),
      cfg.redisConnected = true →
      dupGuardHit (st.rows.reverse.take 2) message = none →
      generateReply oracle (mkGenCtx st cfg message) = .ok g →
      g.aiResponse = none →
      (sendMessageCS st cfg message now oracle).1 = .error .emptyResponse) := by
  refine ⟨by simpa using attemptLoop_calls_le 3 0 [], ?_, ?_⟩
  · intro n h
    unfold generateReply
    rw [h]
    exact ⟨_, rfl, by cases ho : oracle n <;> simp [emergencyStep, ho]⟩
  · intro st cfg message now g hconn hdup hgen hnone
    simp [sendMessageCS, hdup, hconn, redisClientSet, hgen, hnone,
      freePlanRetry_none]

/-- Witness for the amended C5 theorem: the concrete oracle whose three loop
calls repeat the prior assistant text and whose emergency call throws. -/
theorem C5_amended_retry_contract_witness :
    (attemptLoop oracleRepeatThenThrow
      (mkGenCtx stOneTurn cfgPaidSFW (str "how are you")) 3 0 []).calls ≤ 3 ∧
    (∃ g, generateReply oracleRepeatThenThrow
        (mkGenCtx stOneTurn cfgPaidSFW (str "how are you")) = .ok g ∧
      g.calls = 3 + 1) ∧
    (sendMessageCS stOneTurn cfgPaidSFW (str "how are you") 0
      oracleRepeatThenThrow).1 = .error .emptyResponse := by
  obtain ⟨h1, h2, h3⟩ := C5_amended_retry_contract oracleRepeatThenThrow
    (mkGenCtx stOneTurn cfgPaidSFW (str "how are you"))
  exact ⟨h1, h2 3 (by decide),
    h3 stOneTurn cfgPaidSFW (str "how are you") 0 ⟨none, 4⟩ rfl (by decide)
      (by decide) rfl⟩

/-- Claim C6 (amended): the guard directives of every composed prompt appear
as a subsequence of the fixed source order: length-policy directives first,
then the direct-answer directive, then safety, pacing and flirt, then the
topic-focus directive, and the depth directive last. -/
theorem C6_amended_guard_order (cfg : PromptCfg) :
    List.Sublist (guardKindsOf (composeEnhanced cfg)) sourceGuardOrder := by
  rw [guardKinds_composeEnhanced, guardKinds_composeTry]
  exact guardKinds_composeBase_sublist cfg

/-- Witness for the C2 order-index theorem at a concrete two-row session. -/
theorem C2_order_indices_witness :
    sessionIdxs (sendMessageSimple dbTwoRows (str "A") ⟨some false⟩
        (str "hey") (str "Sure thing.") false false false false).2.1
        (str "A") =
      sessionIdxs dbTwoRows (str "A") ++
        [maxOrderIndex dbTwoRows (str "A") + 1,
         maxOrderIndex dbTwoRows (str "A") + 2] ∧
    List.Chain' (· < ·)
      (sessionIdxs (sendMessageSimple dbTwoRows (str "A") ⟨some false⟩
        (str "hey") (str "Sure thing.") false false false false).2.1
        (str "A")) :=
  C2_order_indices dbTwoRows (str "A") ⟨some false⟩ (str "hey")
    (str "Sure thing.") (by decide) (by decide) (by decide)
    (fun mid h => by
      rw [show getMirrorSessionId dbTwoRows (str "A") = none from by decide]
        at h
      cases h)
    (by
      rw [show sessionIdxs dbTwoRows (str "A") = [1, 2] from by decide]
      exact List.chain'_cons.mpr ⟨by norm_num, List.chain'_singleton _⟩)

/-- Witness for the amended C3 theorem: user insert fails, assistant insert
succeeds. -/
theorem C3_amended_persist_flags_witness :
    (sendMessageSimple [] (str "A") ⟨some false⟩ (str "hi") (str "Hello.")
        true false false false).1 =
      .ok ⟨jsTrim (str "Hello."), false,
        decide (jsTake 2000 (str "hi") ≠ []) && !true, !false⟩ ∧
    (false = false →
      SRow.mk (str "A") (str "assistant") (jsTrim (str "Hello.")) false
          (some (maxOrderIndex [] (str "A") + 2)) none
        ∈ (sendMessageSimple [] (str "A") ⟨some false⟩ (str "hi")
            (str "Hello.") true false false false).2.1) :=
  C3_amended_persist_flags [] (str "A") ⟨some false⟩ (str "hi")
    (str "Hello.") true false (by decide) (by decide)

/-- Witness for the C9 mirror theorem on the concrete MirrorLink store. -/
theorem C9_mirror_propagation_witness :
    (sendMessageSimple dbMirror (str "A") ⟨some false⟩ (str "hi")
        (str "Hello.") false false false false).1 =
      .ok ⟨jsTrim (str "Hello."), false, true, true⟩ ∧
    (false = false →
      SRow.mk uuidB (str "user") (jsTake 2000 (str "hi")) false
          (some (maxOrderIndex dbMirror uuidB + 1)) (some (str "A"))
        ∈ (sendMessageSimple dbMirror (str "A") ⟨some false⟩ (str "hi")
            (str "Hello.") false false false false).2.1) ∧
    (false = false → false = false →
      SRow.mk uuidB (str "assistant") (jsTrim (str "Hello.")) false
          (some (maxOrderIndex dbMirror uuidB + 2)) (some (str "A"))
        ∈ (sendMessageSimple dbMirror (str "A") ⟨some false⟩ (str "hi")
            (str "Hello.") false false false false).2.1) :=
  C9_mirror_propagation dbMirror (str "A") uuidB ⟨some false⟩ (str "hi")
    (str "Hello.") false false (by decide) (by decide) (by decide)
    (by decide) (by decide)

/-- Witness for the C10 crash theorem at a concrete NSFW character. -/
theorem C10_nsfw_template_crash_witness :
    buildMessagesForSession ⟨some true⟩ [] = .error .nsfwPromptUndefined ∧
    sendMessageSimple [] (str "A") ⟨some true⟩ (str "hi") (str "Hello.")
      false false false false = (.error .nsfwPromptUndefined, [], false) :=
  C10_nsfw_template_crash [] (str "A") ⟨some true⟩ (str "hi") (str "Hello.")
    false false false false [] rfl

end CharAI
